import Mathlib

/-!
Verification of the hypoDDpy plotting core.

This file gives a shallow embedding, over exact rational arithmetic, of the
three source modules:

* `hypoddpy/plotting/map_cross_section.py` — the `MapCrossSection` class:
  extent computation (`_get_map_extent`, `_get_depth_extent`) and the panel
  layout geometry (`_adjustminmax`, `_make_rects`).
* `hypoddpy/plotting/shape_selection.py` — `Circle` and `Polygon`.
* `hypoddpy/hypodd_plotter.py` — `HypoDDPlotter`: position extraction,
  per-event color assignment, and the original/relocated plotting pipeline.

Python floats are modelled as `ℚ`.  The two external transcendental /
geodetic library functions are kept abstract:

* `np.cos(np.radians x)` becomes a function field `cosDeg : ℚ → ℚ` of the
  embedded `MapCrossSection` state (all the layout claims depend only on it
  being a fixed function of the mean latitude, never on its value);
* `obspy`'s `gps2dist_azimuth(lat1, lon1, lat2, lon2)[0]` (geodesic surface
  distance in meters) becomes an explicit parameter
  `gdist : ℚ → ℚ → ℚ → ℚ → ℚ` of `Circle.contains`.

Python run-time failures (`assert`, `ValueError` from `min([])`,
`ZeroDivisionError`, `TypeError` from a wrong-arity constructor call) are
modelled with `Option`/`Except`: `none` / `.error` means the Python code
raises at that point.
-/

attribute [local semireducible] Rat.add Rat.mul Rat.sub Rat.inv Rat.ofScientific

namespace HypoDDPy

/-- Constant `self.km_per_deg_lat = 1.852 * 60.` set in `MapCrossSection.__init__`. -/
def km_per_deg_lat : ℚ := 1.852 * 60

/-- The numeric state of a `MapCrossSection` object: the map extent
`(lon_min, lon_max, lat_min, lat_max)`, the depth extent, the four inch
paddings, and the abstracted `np.cos(np.radians ·)` function used by the
`km_per_deg_lon` property. -/
structure MCS where
  lon_min : ℚ
  lon_max : ℚ
  lat_min : ℚ
  lat_max : ℚ
  depth_min : ℚ
  depth_max : ℚ
  pad_left : ℚ
  pad_right : ℚ
  pad_top : ℚ
  pad_bottom : ℚ
  cosDeg : ℚ → ℚ

/-- Property `km_per_deg_lon`:
`self.km_per_deg_lat * np.cos(np.radians((self.lat_min + self.lat_max) / 2.))`. -/
def MCS.km_per_deg_lon (m : MCS) : ℚ :=
  km_per_deg_lat * m.cosDeg ((m.lat_min + m.lat_max) / 2)

/-- Property `lonrange = lon_max - lon_min`. -/
def MCS.lonrange (m : MCS) : ℚ := m.lon_max - m.lon_min

/-- Property `latrange = lat_max - lat_min`. -/
def MCS.latrange (m : MCS) : ℚ := m.lat_max - m.lat_min

/-- Property `depthrange = depth_extent[1] - depth_extent[0]`. -/
def MCS.depthrange (m : MCS) : ℚ := m.depth_max - m.depth_min

/-- Property `lonrange_km = lonrange * km_per_deg_lon`. -/
def MCS.lonrange_km (m : MCS) : ℚ := m.lonrange * m.km_per_deg_lon

/-- Property `latrange_km = latrange * km_per_deg_lat`. -/
def MCS.latrange_km (m : MCS) : ℚ := m.latrange * km_per_deg_lat

/-- Property `xrange_km = lonrange_km + depthrange`. -/
def MCS.xrange_km (m : MCS) : ℚ := m.lonrange_km + m.depthrange

/-- Property `yrange_km = latrange_km + depthrange`. -/
def MCS.yrange_km (m : MCS) : ℚ := m.latrange_km + m.depthrange

/-- Property `plot_aspect = xrange_km / yrange_km`. -/
def MCS.plot_aspect (m : MCS) : ℚ := m.xrange_km / m.yrange_km

/-- Method `MapCrossSection._adjustminmax(fig_aspect)` (lines 192-203): when the
figure is relatively wider (`fig_aspect > plot_aspect`) widen the longitude
extent by `add_deg = add_kms / km_per_deg_lon` on both sides, where
`add_kms = ((yrange_km * fig_aspect) - xrange_km) / 2`; otherwise widen the
latitude extent by `add_kms / km_per_deg_lat` on both sides, where
`add_kms = ((xrange_km / fig_aspect) - yrange_km) / 2`.  The Python method
mutates `self.map_extent` in place; here it returns the updated state. -/
def MCS.adjustminmax (m : MCS) (fig_aspect : ℚ) : MCS :=
  if fig_aspect > m.plot_aspect then
    { m with
      lon_min := m.lon_min - ((m.yrange_km * fig_aspect - m.xrange_km) / 2) / m.km_per_deg_lon,
      lon_max := m.lon_max + ((m.yrange_km * fig_aspect - m.xrange_km) / 2) / m.km_per_deg_lon }
  else
    { m with
      lat_min := m.lat_min - ((m.xrange_km / fig_aspect - m.yrange_km) / 2) / km_per_deg_lat,
      lat_max := m.lat_max + ((m.xrange_km / fig_aspect - m.yrange_km) / 2) / km_per_deg_lat }

/-- Lines 228-233 of `MapCrossSection._make_rects`:
`inch_per_km_x = fig_xrange / xrange_km`, `inch_per_km_y = fig_yrange / yrange_km`,
then if `plot_aspect > fig_aspect` shrink `inch_per_km_y` by
`fig_aspect / plot_aspect`, elif `plot_aspect < fig_aspect` shrink
`inch_per_km_x` by `plot_aspect / fig_aspect`.  Returns the pair
`(inch_per_km_x, inch_per_km_y)` after the adjustment. -/
def MCS.inch_per_km (m : MCS) (fig_xrange fig_yrange : ℚ) : ℚ × ℚ :=
  if m.plot_aspect > fig_xrange / fig_yrange then
    (fig_xrange / m.xrange_km,
     fig_yrange / m.yrange_km * ((fig_xrange / fig_yrange) / m.plot_aspect))
  else if m.plot_aspect < fig_xrange / fig_yrange then
    (fig_xrange / m.xrange_km * (m.plot_aspect / (fig_xrange / fig_yrange)),
     fig_yrange / m.yrange_km)
  else
    (fig_xrange / m.xrange_km, fig_yrange / m.yrange_km)

/-- An axes rectangle `[left, bottom, width, height]` in figure fractions. -/
structure Rect where
  left : ℚ
  bottom : ℚ
  width : ℚ
  height : ℚ
  deriving DecidableEq

/-- The right edge `r.left + r.width` of a rectangle. -/
def Rect.rightEdge (r : Rect) : ℚ := r.left + r.width

/-- The top edge `r.bottom + r.height` of a rectangle. -/
def Rect.topEdge (r : Rect) : ℚ := r.bottom + r.height

/-- Two rectangles overlap when their interiors intersect, i.e. both the
horizontal and the vertical open intervals intersect. -/
def Rect.overlaps (r s : Rect) : Prop :=
  max r.left s.left < min r.rightEdge s.rightEdge ∧
  max r.bottom s.bottom < min r.topEdge s.topEdge

/-- Lines 235-249 of `MapCrossSection._make_rects`, applied to a state whose
extent has (for `fill_figure`) already been adjusted: converts the four
panel dimensions from kilometers to figure fractions with the adjusted
scale factors and positions the three rectangles
`(rect_map, rect_xz, rect_zy)`. -/
def MCS.rects_core (m : MCS) (fig_inches_x fig_inches_y fig_xrange fig_yrange : ℚ) :
    Rect × Rect × Rect :=
  let s := m.inch_per_km fig_xrange fig_yrange
  let left_width := m.lonrange_km * s.1 / fig_inches_x
  let right_width := m.depthrange * s.1 / fig_inches_x
  let lower_height := m.depthrange * s.2 / fig_inches_y
  let upper_height := m.latrange_km * s.2 / fig_inches_y
  let left_left := m.pad_left / fig_inches_x
  let right_left := left_left + left_width
  let lower_bottom := m.pad_bottom / fig_inches_y
  let upper_bottom := lower_bottom + lower_height
  (⟨left_left, upper_bottom, left_width, upper_height⟩,
   ⟨left_left, lower_bottom, left_width, lower_height⟩,
   ⟨right_left, upper_bottom, right_width, upper_height⟩)

/-- Method `MapCrossSection._make_rects(fig, fill_figure)` (lines 212-249): computes
the usable ranges from the figure size minus the paddings, adjusts the map
extent when `fill_figure` is set, and builds the three axes rectangles. -/
def MCS.make_rects (m : MCS) (fig_inches_x fig_inches_y : ℚ) (fill_figure : Bool) :
    Rect × Rect × Rect :=
  let fig_xrange := fig_inches_x - m.pad_left - m.pad_right
  let fig_yrange := fig_inches_y - m.pad_top - m.pad_bottom
  let m' := if fill_figure then m.adjustminmax (fig_xrange / fig_yrange) else m
  m'.rects_core fig_inches_x fig_inches_y fig_xrange fig_yrange

/-- A sample `MapCrossSection` state used by the concrete witnesses:
the map extent `[45, 46, -13, -12]`, depth extent `[0, 50]`, the default
paddings of `MapCrossSection.__init__`, and the cosine stub `1`. -/
def sampleMCS : MCS :=
  ⟨45, 46, -13, -12, 0, 50, 0.6, 0.6, 0.4, 0.4, fun _ => 1⟩

/-- Extent tuple `(lon_min, lon_max, lat_min, lat_max)`. -/
abbrev Extent4 := ℚ × ℚ × ℚ × ℚ

/-- Depth extent `(depth_min, depth_max)`. -/
abbrev Extent2 := ℚ × ℚ

/-- Python `min` over a list of floats: `ValueError` (`none`) when empty. -/
def pymin (l : List ℚ) : Option ℚ :=
  match l with
  | [] => none
  | x :: xs => some (xs.foldl min x)

/-- Python `max` over a list of floats: `ValueError` (`none`) when empty. -/
def pymax (l : List ℚ) : Option ℚ :=
  match l with
  | [] => none
  | x :: xs => some (xs.foldl max x)

/-- Method `MapCrossSection._get_map_extent` (lines 156-178).  An explicit extent is
validated by the `assert`s (`x1 > x0`, `y1 > y0`) and returned as-is; with no
explicit extent the latitudes/longitudes must both be supplied (`assert`)
and non-empty (`min`/`max` raise on an empty list), and the min/max box is
expanded by `extent_buffer` times the range on each end of each axis.
`none` models the raised exception. -/
def get_map_extent (map_extent : Option Extent4)
    (latitudes longitudes : Option (List ℚ)) (extent_buffer : ℚ) :
    Option Extent4 :=
  match map_extent with
  | some e => if e.1 < e.2.1 ∧ e.2.2.1 < e.2.2.2 then some e else none
  | none =>
    match latitudes, longitudes with
    | some lats, some lons =>
      match pymin lons, pymax lons, pymin lats, pymax lats with
      | some lon_min, some lon_max, some lat_min, some lat_max =>
        some (lon_min - (lon_max - lon_min) * extent_buffer,
              lon_max + (lon_max - lon_min) * extent_buffer,
              lat_min - (lat_max - lat_min) * extent_buffer,
              lat_max + (lat_max - lat_min) * extent_buffer)
      | _, _, _, _ => none
    | _, _ => none

/-- Method `MapCrossSection._get_depth_extent` (lines 180-190), the 1-D analogue. -/
def get_depth_extent (depth_extent : Option Extent2)
    (depths : Option (List ℚ)) (extent_buffer : ℚ) : Option Extent2 :=
  match depth_extent with
  | some de => if de.1 < de.2 then some de else none
  | none =>
    match depths with
    | some ds =>
      match pymin ds, pymax ds with
      | some depth_min, some depth_max =>
        some (depth_min - (depth_max - depth_min) * extent_buffer,
              depth_max + (depth_max - depth_min) * extent_buffer)
      | _, _ => none
    | none => none

/-- Class `shape_selection.Circle`: center longitude/latitude and a radius in
degrees of latitude. -/
structure Circle where
  longitude : ℚ
  latitude : ℚ
  radius : ℚ

/-- Constructor `Circle.__init__(longitude, latitude, radius)` stores its three
arguments without any validation. -/
def Circle.init (longitude latitude radius : ℚ) : Circle :=
  ⟨longitude, latitude, radius⟩

/-- Method `Circle.contains(event_longitude, event_latitude)`:
`dist = gps2dist_azimuth(event_latitude, event_longitude, self.latitude,
self.longitude)[0]` and the result is `dist / (1852 * 60) <= self.radius`.
The geodesic distance in meters is the abstract parameter `gdist`. -/
def Circle.contains (c : Circle) (gdist : ℚ → ℚ → ℚ → ℚ → ℚ)
    (event_longitude event_latitude : ℚ) : Bool :=
  decide (gdist event_latitude event_longitude c.latitude c.longitude
    / (1852 * 60) ≤ c.radius)

/-- Class `shape_selection.Polygon`: the stored vertex list of `(lon, lat)`
pairs. -/
structure Polygon where
  polygon : List (ℚ × ℚ)

/-- Constructor `Polygon.__init__(polygon)` stores the vertex list without any
validation. -/
def Polygon.init (polygon : List (ℚ × ℚ)) : Polygon := ⟨polygon⟩

/-- A stand-in geodesic distance for the C6 witness: a squared-offsets
distance that is 0 at coincident points and `0.98 * 1852 * 60` meters
between the two sample points of the spec scenario. -/
def sampleDist (lat1 lon1 lat2 lon2 : ℚ) : ℚ :=
  ((lat1 - lat2) * (lat1 - lat2) + (lon1 - lon2) * (lon1 - lon2)) * 222240

/-- A Python value as far as the plotting entry point needs: a float or a
list of floats. -/
inductive PyVal where
  | numVal (q : ℚ)
  | listVal (l : List ℚ)

/-- Calling `Circle(...)` with a list of positional arguments: Python binds
them to `(longitude, latitude, radius)` and raises `TypeError` unless
exactly three are given. -/
def circle_ctor_call (args : List PyVal) : Except String (PyVal × PyVal × PyVal) :=
  match args with
  | [a, b, c] => Except.ok (a, b, c)
  | _ => Except.error "TypeError"

/-- Does `p` start the character list `s`?  (List-level `startswith`.) -/
def startsWithL : List Char → List Char → Bool
  | [], _ => true
  | _ :: _, [] => false
  | p :: ps, c :: cs => p == c && startsWithL ps cs

/-- Python's substring test `pat in s` on character lists. -/
def containsSub (pat : List Char) : List Char → Bool
  | [] => pat.isEmpty
  | c :: rest => startsWithL pat (c :: rest) || containsSub pat rest

/-- Python's `pat in s` for strings. -/
def strContains (s pat : String) : Bool :=
  containsSub pat.toList s.toList

/-- ASCII model of `str.upper` on a character (the cluster-id logic only
meets ASCII method identifiers). -/
def upperChar (c : Char) : Char :=
  if 'a' ≤ c ∧ c ≤ 'z' then Char.ofNat (c.toNat - 32) else c

/-- ASCII model of `str.upper`. -/
def upperStr (s : String) : String :=
  String.mk (s.toList.map upperChar)

/-- Python `s.split(":")` on character lists. -/
def splitOnColon : List Char → List (List Char)
  | [] => [[]]
  | c :: rest =>
    if c == ':' then [] :: splitOnColon rest
    else
      match splitOnColon rest with
      | [] => [[c]]
      | g :: gs => (c :: g) :: gs

def dropSpacesL : List Char → List Char
  | [] => []
  | c :: rest =>
    if c == ' ' ∨ c == '\t' ∨ c == '\n' ∨ c == '\r' then dropSpacesL rest
    else c :: rest

/-- Strip surrounding whitespace, as Python's `int()` does before
parsing. -/
def stripL (l : List Char) : List Char :=
  ((dropSpacesL ((dropSpacesL l).reverse)).reverse)

def digVal (c : Char) : Option Nat :=
  if '0' ≤ c ∧ c ≤ '9' then some (c.toNat - 48) else none

/-- Digits with Python 3 digit-group underscores: an underscore is accepted
only when a digit follows it (and `pyDigits` requires a digit before it, so
underscores sit strictly between digits, as in `int("1_2") == 12`). -/
def digitsVal : Nat → List Char → Option Nat
  | acc, [] => some acc
  | acc, c :: rest =>
    match digVal c with
    | some d => digitsVal (10 * acc + d) rest
    | none =>
      if c == '_' then
        match rest with
        | [] => none
        | r :: _ =>
          match digVal r with
          | some _ => digitsVal acc rest
          | none => none
      else none

/-- A digit run in Python's `int()` grammar: it must start with a digit
(no leading underscore, no empty string). -/
def pyDigits (l : List Char) : Option Nat :=
  match l with
  | [] => none
  | c :: _ =>
    match digVal c with
    | some _ => digitsVal 0 l
    | none => none

/-- Python `int(str)` on a decimal string: optional sign, digits with
optional digit-group underscores, and surrounding whitespace; `none` models
the raised `ValueError`. -/
def pyToInt (l : List Char) : Option Int :=
  match stripL l with
  | [] => none
  | '-' :: rest => (pyDigits rest).map (fun n => -(n : Int))
  | '+' :: rest => (pyDigits rest).map (fun n => (n : Int))
  | other => (pyDigits other).map (fun n => (n : Int))

/-- A plot color: the reserved grey "not relocated" color, or one of the 12
colors of `get_cmap("Paired", 12)` identified by its palette index. -/
inductive PlotColor where
  | invalid
  | palette (i : Fin 12)
  deriving DecidableEq

/-- Colormap `get_cmap("Paired", 12)` applied to an `int` index: matplotlib's
`Colormap.__call__` uses an integer argument directly as a lookup-table
index, sending indices above `N - 1` to the over color (by default a copy
of the last palette color) and negative indices to the under color (by
default a copy of the first palette color).  It does *not* reduce the index
modulo the palette size. -/
def cmap12 (i : Int) : PlotColor :=
  if h1 : 11 < i then PlotColor.palette ⟨11, by omega⟩
  else if h2 : i < 0 then PlotColor.palette ⟨0, by omega⟩
  else PlotColor.palette ⟨i.toNat, by omega⟩

/-- The guard of `_set_plot_params` lines 170-171: the event counts as
relocated iff `method_id` is not `None` and `"HYPODD"` occurs in its
uppercased text. -/
def hypodd_method (method_id : Option String) : Bool :=
  match method_id with
  | none => false
  | some mid => strContains (upperStr mid) "HYPODD"

/-- The comment scan of lines 175-179: the first comment whose text is
truthy and mentions `"HypoDD cluster id"`. -/
def find_cluster_comment : List (Option String) → Option String
  | [] => none
  | none :: rest => find_cluster_comment rest
  | some t :: rest =>
    if t ≠ "" ∧ strContains t "HypoDD cluster id" then some t
    else find_cluster_comment rest

/-- Lines 175-181: extract the cluster id via
`int(comment.split(":")[-1])` from the first matching comment, falling back
to `0` (the `for`/`else` branch) when no comment matches; a malformed
number raises `ValueError`. -/
def parse_cluster_id (comments : List (Option String)) : Except String Int :=
  match find_cluster_comment comments with
  | none => Except.ok 0
  | some t =>
    match pyToInt ((splitOnColon t.toList).getLastD []) with
    | some i => Except.ok i
    | none => Except.error "ValueError"

/-- The per-event color assignment of `_set_plot_params` lines 166-182. -/
def event_color (method_id : Option String) (comments : List (Option String)) :
    Except String PlotColor :=
  if hypodd_method method_id then
    match parse_cluster_id comments with
    | Except.ok i => Except.ok (cmap12 i)
    | Except.error e => Except.error e
  else Except.ok PlotColor.invalid

/-- One origin of a catalog event: latitude, longitude, depth in meters,
the optional method identifier, and the comment texts (`comment.text` may
be `None`). -/
structure POrigin where
  latitude : ℚ
  longitude : ℚ
  depth : ℚ
  method_id : Option String
  comments : List (Option String)
  deriving DecidableEq

/-- A catalog event as the plotter sees it: its ordered origin list
(`origins[0]` original, `origins[-1]` relocated) and its magnitude list
(`_set_plot_params` reads `event.magnitudes[0].mag`). -/
structure PEvent where
  origins : List POrigin
  magnitudes : List ℚ
  deriving DecidableEq

/-- The `Positions` helper class of `hypodd_plotter.py`. -/
structure Positions where
  latitudes : List ℚ
  longitudes : List ℚ
  depths : List ℚ

/-- Collect `origins[0]` of every event; an empty origin list makes the
Python indexing raise (`none`). -/
def origins_first : List PEvent → Option (List POrigin)
  | [] => some []
  | e :: rest =>
    match e.origins.head?, origins_first rest with
    | some o, some os => some (o :: os)
    | _, _ => none

/-- Collect `origins[-1]` of every event; an empty origin list makes the
Python indexing raise (`none`). -/
def origins_last : List PEvent → Option (List POrigin)
  | [] => some []
  | e :: rest =>
    match e.origins.getLast?, origins_last rest with
    | some o, some os => some (o :: os)
    | _, _ => none

/-- Method `HypoDDPlotter._extract_positions`: takes `origins[0]` and
`origins[-1]` of every event, converting depths from meters to
kilometers. -/
def extract_positions (cat : List PEvent) : Option (Positions × Positions) :=
  match origins_first cat, origins_last cat with
  | some os, some rs =>
    some (⟨os.map POrigin.latitude, os.map POrigin.longitude,
           os.map (fun o => o.depth / 1000)⟩,
          ⟨rs.map POrigin.latitude, rs.map POrigin.longitude,
           rs.map (fun o => o.depth / 1000)⟩)
  | _, _ => none

/-- The per-event work of `_set_plot_params` (lines 155-187): read
`event.magnitudes[0].mag` (IndexError when the magnitude list is empty),
read `event.origins[-1]` (IndexError when empty) and compute the cluster
color from its method id and comments (ValueError on a malformed cluster
comment).  The shape containment test of lines 184-187 is a total boolean
and cannot fail, so it does not appear in the failure model. -/
def set_plot_params_event (e : PEvent) : Except String (ℚ × PlotColor) :=
  match e.magnitudes.head? with
  | none => Except.error "IndexError"
  | some mag =>
    match e.origins.getLast? with
    | none => Except.error "IndexError"
    | some o =>
      match event_color o.method_id o.comments with
      | Except.ok c => Except.ok (mag, c)
      | Except.error err => Except.error err

/-- Method `HypoDDPlotter._set_plot_params` over the whole catalog: the loop
raises at the first failing event. -/
def set_plot_params : List PEvent → Except String (List (ℚ × PlotColor))
  | [] => Except.ok []
  | e :: rest =>
    match set_plot_params_event e, set_plot_params rest with
    | Except.ok x, Except.ok xs => Except.ok (x :: xs)
    | Except.error err, _ => Except.error err
    | _, Except.error err => Except.error err

/-- What one `_plot_events` call returns: `mcs.map_extent` and
`mcs.depth_extent` of the `MapCrossSection` it built. -/
structure RenderResult where
  map_extent : Extent4
  depth_extent : Extent2
  deriving DecidableEq

/-- The `MapCrossSection` state built by `_plot_events`: the given extents,
the default paddings, and the abstracted cosine.  (`_plot_events` never
passes a figure size, and `plt.figure(figsize)` hands `figsize` to the
`num` parameter anyway, so the figure always has the default
6.4 x 4.8 inch size.) -/
def mcs_from (me : Extent4) (de : Extent2) (cosDeg : ℚ → ℚ) : MCS :=
  ⟨me.1, me.2.1, me.2.2.1, me.2.2.2, de.1, de.2, 0.6, 0.6, 0.4, 0.4, cosDeg⟩

/-- Method `HypoDDPlotter._plot_events(positions, shape, map_extent, depth_extent)`
reduced to its extent behavior: construct a `MapCrossSection` with
`fill_figure=False` and `extent_buffer` defaulting to `0.2`, and return
`(mcs.map_extent, mcs.depth_extent)`.  The construction raises
(`none`) when extent computation fails or when a composite km range is zero
(`ZeroDivisionError` in `_make_rects`). -/
def plot_events_render (cosDeg : ℚ → ℚ) (map_extent : Option Extent4)
    (depth_extent : Option Extent2) (pos : Positions) : Option RenderResult :=
  match get_map_extent map_extent (some pos.latitudes) (some pos.longitudes) (1/5) with
  | none => none
  | some me =>
    match get_depth_extent depth_extent (some pos.depths) (1/5) with
    | none => none
    | some de =>
      if (mcs_from me de cosDeg).xrange_km = 0 ∨ (mcs_from me de cosDeg).yrange_km = 0
      then none
      else some ⟨me, de⟩

/-- Method `HypoDDPlotter._plot_original_relocated` (lines 102-134): extracts
the positions, runs `_set_plot_params` (which can raise before anything is
drawn), renders the original positions with the configured extents, saves
`{file_base}_original.pdf`, then renders the relocated positions passing
the extents returned by the first render, and saves
`{file_base}_relocated.pdf`.  Returns the two file names and the two render
results; `none` models an exception aborting the invocation. -/
def plot_original_relocated (cosDeg : ℚ → ℚ) (file_base : String)
    (cat : List PEvent) (map_extent : Option Extent4)
    (depth_extent : Option Extent2) :
    Option (String × String × RenderResult × RenderResult) :=
  match extract_positions cat with
  | none => none
  | some (original_pos, relocated_pos) =>
    match set_plot_params cat with
    | Except.error _ => none
    | Except.ok _ =>
    match plot_events_render cosDeg map_extent depth_extent original_pos with
    | none => none
    | some r1 =>
      match plot_events_render cosDeg (some r1.map_extent)
          (some r1.depth_extent) relocated_pos with
      | none => none
      | some r2 =>
        some (file_base ++ "_original.pdf", file_base ++ "_relocated.pdf", r1, r2)

/-- The tail of `HypoDDPlotter.plot_events` after the circle check: the
polygon branch (`Polygon(polygon)` takes one argument, so it binds fine and
only affects drawn styling) and the call to `_plot_original_relocated`. -/
def plot_events_after_shape (cosDeg : ℚ → ℚ) (cat : List PEvent)
    (file_base : String) (_polygon : Option (List (ℚ × ℚ)))
    (map_extent : Option Extent4) (depth_extent : Option Extent2) :
    Except String (String × String × RenderResult × RenderResult) :=
  match plot_original_relocated cosDeg file_base cat map_extent depth_extent with
  | some r => Except.ok r
  | none => Except.error "Error"

/-- Method `HypoDDPlotter.plot_events` (lines 80-100): `if circle:` — a truthy
(non-empty) circle list triggers `shape=Circle(circle)`, a call that passes
the whole list as the single positional argument of a three-argument
constructor and therefore raises `TypeError` before anything is drawn; an
empty or absent circle falls through to the polygon branch and the
plotting. -/
def plot_events (cosDeg : ℚ → ℚ) (cat : List PEvent) (file_base : String)
    (circle : Option (List ℚ)) (polygon : Option (List (ℚ × ℚ)))
    (map_extent : Option Extent4) (depth_extent : Option Extent2) :
    Except String (String × String × RenderResult × RenderResult) :=
  match circle with
  | some [] =>
    plot_events_after_shape cosDeg cat file_base polygon map_extent depth_extent
  | some (x :: xs) =>
    match circle_ctor_call [PyVal.listVal (x :: xs)] with
    | Except.error e => Except.error e
    | Except.ok _ =>
      plot_events_after_shape cosDeg cat file_base polygon map_extent depth_extent
  | none =>
    plot_events_after_shape cosDeg cat file_base polygon map_extent depth_extent

/-- The three-event sample catalog of the spec's end-to-end scenario:
`origins[0] != origins[-1]` for each event, each event carries a magnitude,
two events are HypoDD-relocated with well-formed cluster comments, and one
is not relocated. -/
def sampleCat : List PEvent :=
  [⟨[⟨-12.8, 45.3, 10000, none, []⟩,
     ⟨-12.7, 45.4, 12000, some "HYPODD", [some "HypoDD cluster id: 1"]⟩], [2]⟩,
   ⟨[⟨-12.6, 45.5, 20000, none, []⟩,
     ⟨-12.5, 45.6, 22000, some "HYPODD", [some "HypoDD cluster id: 2"]⟩], [3]⟩,
   ⟨[⟨-12.9, 45.2, 30000, none, []⟩,
     ⟨-12.85, 45.25, 31000, none, []⟩], [1]⟩]

theorem km_per_deg_lat_pos : 0 < km_per_deg_lat := by decide

/-- The two scale factors agree after the adjustment of lines 230-233,
whenever the usable inches and the composite km ranges are positive. -/
theorem inch_per_km_eq (m : MCS) (a b : ℚ) (ha : 0 < a) (hb : 0 < b)
    (hX : 0 < m.xrange_km) (hY : 0 < m.yrange_km) :
    (m.inch_per_km a b).1 = (m.inch_per_km a b).2 := by
  have hX' : m.xrange_km ≠ 0 := hX.ne'
  have hY' : m.yrange_km ≠ 0 := hY.ne'
  have ha' : a ≠ 0 := ha.ne'
  have hb' : b ≠ 0 := hb.ne'
  unfold MCS.inch_per_km
  split_ifs with h1 h2
  · dsimp only
    rw [MCS.plot_aspect]
    field_simp
    ring
  · dsimp only
    rw [MCS.plot_aspect]
    field_simp
    ring
  · dsimp only
    push_neg at h1 h2
    have heq : m.plot_aspect = a / b := le_antisymm h1 h2
    rw [MCS.plot_aspect] at heq
    rw [div_eq_div_iff hY' hb'] at heq
    rw [div_eq_div_iff hX' hY']
    linear_combination -heq

/-- The adjusted vertical scale factor is positive for valid inputs. -/
theorem inch_per_km_snd_pos (m : MCS) (a b : ℚ) (ha : 0 < a) (hb : 0 < b)
    (hX : 0 < m.xrange_km) (hY : 0 < m.yrange_km) :
    0 < (m.inch_per_km a b).2 := by
  have hpa : 0 < m.plot_aspect := div_pos hX hY
  unfold MCS.inch_per_km
  split_ifs with h1 h2
  · dsimp only
    exact mul_pos (div_pos hb hY) (div_pos (div_pos ha hb) hpa)
  · dsimp only
    exact div_pos hb hY
  · dsimp only
    exact div_pos hb hY

/-- C1: for every valid layout input (positive usable width and height in
inches, positive composite km ranges), after the scale-factor adjustment of
`_make_rects` lines 228-233 the horizontal and vertical inch-per-km scale
factors are equal, so 1 km spans the same physical length on the map panel
and on both cross-section panels; consequently, for two figure sizes with
the same extents, the ratio of the x scale to the y scale is 1 in both
layouts. -/
theorem C1_isometric_scale (m : MCS) (fx fy fx' fy' : ℚ)
    (hfx : 0 < fx) (hfy : 0 < fy) (hfx' : 0 < fx') (hfy' : 0 < fy')
    (hX : 0 < m.xrange_km) (hY : 0 < m.yrange_km) :
    (m.inch_per_km fx fy).1 = (m.inch_per_km fx fy).2 ∧
    (m.inch_per_km fx fy).1 / (m.inch_per_km fx fy).2 = 1 ∧
    (m.inch_per_km fx' fy').1 / (m.inch_per_km fx' fy').2 = 1 := by
  refine ⟨inch_per_km_eq m fx fy hfx hfy hX hY, ?_, ?_⟩
  · rw [inch_per_km_eq m fx fy hfx hfy hX hY]
    exact div_self (inch_per_km_snd_pos m fx fy hfx hfy hX hY).ne'
  · rw [inch_per_km_eq m fx' fy' hfx' hfy' hX hY]
    exact div_self (inch_per_km_snd_pos m fx' fy' hfx' hfy' hX hY).ne'

/-- Witness for C1 at the sample state with usable areas 5.2 x 4.0 and
8.0 x 6.0 inches. -/
theorem C1_isometric_scale_witness :
    (sampleMCS.inch_per_km 5.2 4).1 = (sampleMCS.inch_per_km 5.2 4).2 ∧
    (sampleMCS.inch_per_km 5.2 4).1 / (sampleMCS.inch_per_km 5.2 4).2 = 1 ∧
    (sampleMCS.inch_per_km 8 6).1 / (sampleMCS.inch_per_km 8 6).2 = 1 :=
  C1_isometric_scale sampleMCS 5.2 4 8 6 (by decide) (by decide) (by decide)
    (by decide) (by decide) (by decide)

/-- Method `_adjustminmax` never changes the sum `lat_min + lat_max`: the longitude
branch leaves the latitudes alone, the latitude branch expands
symmetrically. -/
theorem adjust_lat_sum (m : MCS) (fa : ℚ) :
    (m.adjustminmax fa).lat_min + (m.adjustminmax fa).lat_max =
      m.lat_min + m.lat_max := by
  unfold MCS.adjustminmax
  split_ifs with h
  · rfl
  · dsimp only
    ring

theorem adjust_cosDeg (m : MCS) (fa : ℚ) :
    (m.adjustminmax fa).cosDeg = m.cosDeg := by
  unfold MCS.adjustminmax
  split_ifs <;> rfl

/-- The `km_per_deg_lon` property is unchanged by `_adjustminmax`: it depends
only on the mean latitude, which both branches preserve. -/
theorem adjust_km_per_deg_lon (m : MCS) (fa : ℚ) :
    (m.adjustminmax fa).km_per_deg_lon = m.km_per_deg_lon := by
  unfold MCS.km_per_deg_lon
  rw [adjust_cosDeg]
  rw [show (m.adjustminmax fa).lat_min + (m.adjustminmax fa).lat_max
      = m.lat_min + m.lat_max from adjust_lat_sum m fa]

theorem adjust_yrange_of_gt (m : MCS) (fa : ℚ) (h : fa > m.plot_aspect) :
    (m.adjustminmax fa).yrange_km = m.yrange_km := by
  unfold MCS.adjustminmax
  rw [if_pos h]
  unfold MCS.yrange_km MCS.latrange_km MCS.latrange MCS.depthrange
  rfl

/-- In the longitude branch the composite x range becomes exactly
`yrange_km * fig_aspect`. -/
theorem adjust_xrange_of_gt (m : MCS) (fa : ℚ) (h : fa > m.plot_aspect)
    (hL : m.km_per_deg_lon ≠ 0) :
    (m.adjustminmax fa).xrange_km = m.yrange_km * fa := by
  unfold MCS.adjustminmax
  rw [if_pos h]
  unfold MCS.xrange_km MCS.lonrange_km MCS.lonrange MCS.depthrange MCS.yrange_km
    MCS.latrange_km MCS.latrange MCS.km_per_deg_lon
  unfold MCS.km_per_deg_lon at hL
  dsimp only
  field_simp
  ring

theorem adjust_xrange_of_le (m : MCS) (fa : ℚ) (h : ¬ fa > m.plot_aspect) :
    (m.adjustminmax fa).xrange_km = m.xrange_km := by
  unfold MCS.xrange_km MCS.lonrange_km MCS.lonrange MCS.depthrange
  rw [adjust_km_per_deg_lon]
  unfold MCS.adjustminmax
  rw [if_neg h]

/-- In the latitude branch the composite y range becomes exactly
`xrange_km / fig_aspect`. -/
theorem adjust_yrange_of_le (m : MCS) (fa : ℚ) (h : ¬ fa > m.plot_aspect) :
    (m.adjustminmax fa).yrange_km = m.xrange_km / fa := by
  unfold MCS.adjustminmax
  rw [if_neg h]
  unfold MCS.yrange_km MCS.latrange_km MCS.latrange MCS.depthrange
  dsimp only
  have hK : km_per_deg_lat ≠ 0 := km_per_deg_lat_pos.ne'
  generalize m.xrange_km / fa = u
  field_simp
  ring

/-- After `_adjustminmax(fig_aspect)` the plot aspect equals the figure
aspect exactly. -/
theorem adjust_plot_aspect (m : MCS) (fa : ℚ)
    (hcos : 0 < m.cosDeg ((m.lat_min + m.lat_max) / 2))
    (hX : 0 < m.xrange_km) (hY : 0 < m.yrange_km) :
    (m.adjustminmax fa).plot_aspect = fa := by
  have hL : m.km_per_deg_lon ≠ 0 := by
    unfold MCS.km_per_deg_lon
    exact (mul_pos km_per_deg_lat_pos hcos).ne'
  by_cases h : fa > m.plot_aspect
  · rw [MCS.plot_aspect, adjust_xrange_of_gt m fa h hL, adjust_yrange_of_gt m fa h]
    exact mul_div_cancel_left₀ fa hY.ne'
  · rw [MCS.plot_aspect, adjust_yrange_of_le m fa h, adjust_xrange_of_le m fa h]
    rw [div_div_eq_mul_div]
    exact mul_div_cancel_left₀ fa hX.ne'

/-- C2: in fill-figure mode, when the usable figure aspect exceeds the plot
aspect `_adjustminmax` expands the longitude extent symmetrically (same
degrees off `lon_min` as onto `lon_max`, latitudes untouched), otherwise it
expands the latitude extent symmetrically (longitudes untouched); after the
adjustment `plot_aspect` equals the figure aspect exactly, and
`km_per_deg_lon` is unchanged because the mean latitude is preserved. -/
theorem C2_fill_adjust (m : MCS) (fa : ℚ) (_hfa : 0 < fa)
    (hcos : 0 < m.cosDeg ((m.lat_min + m.lat_max) / 2))
    (hX : 0 < m.xrange_km) (hY : 0 < m.yrange_km) :
    (m.adjustminmax fa).plot_aspect = fa ∧
    (fa > m.plot_aspect →
      m.lon_min - (m.adjustminmax fa).lon_min =
        (m.adjustminmax fa).lon_max - m.lon_max ∧
      (m.adjustminmax fa).lat_min = m.lat_min ∧
      (m.adjustminmax fa).lat_max = m.lat_max) ∧
    (¬ fa > m.plot_aspect →
      m.lat_min - (m.adjustminmax fa).lat_min =
        (m.adjustminmax fa).lat_max - m.lat_max ∧
      (m.adjustminmax fa).lon_min = m.lon_min ∧
      (m.adjustminmax fa).lon_max = m.lon_max) ∧
    (m.adjustminmax fa).km_per_deg_lon = m.km_per_deg_lon := by
  refine ⟨adjust_plot_aspect m fa hcos hX hY, ?_, ?_, adjust_km_per_deg_lon m fa⟩
  · intro h
    unfold MCS.adjustminmax
    rw [if_pos h]
    dsimp only
    exact ⟨by ring, rfl, rfl⟩
  · intro h
    unfold MCS.adjustminmax
    rw [if_neg h]
    dsimp only
    exact ⟨by ring, rfl, rfl⟩

/-- Witness for C2 at the sample state with figure aspect 2. -/
theorem C2_fill_adjust_witness :
    (sampleMCS.adjustminmax 2).plot_aspect = 2 ∧
    ((2 : ℚ) > sampleMCS.plot_aspect →
      sampleMCS.lon_min - (sampleMCS.adjustminmax 2).lon_min =
        (sampleMCS.adjustminmax 2).lon_max - sampleMCS.lon_max ∧
      (sampleMCS.adjustminmax 2).lat_min = sampleMCS.lat_min ∧
      (sampleMCS.adjustminmax 2).lat_max = sampleMCS.lat_max) ∧
    (¬ (2 : ℚ) > sampleMCS.plot_aspect →
      sampleMCS.lat_min - (sampleMCS.adjustminmax 2).lat_min =
        (sampleMCS.adjustminmax 2).lat_max - sampleMCS.lat_max ∧
      (sampleMCS.adjustminmax 2).lon_min = sampleMCS.lon_min ∧
      (sampleMCS.adjustminmax 2).lon_max = sampleMCS.lon_max) ∧
    (sampleMCS.adjustminmax 2).km_per_deg_lon = sampleMCS.km_per_deg_lon :=
  C2_fill_adjust sampleMCS 2 (by decide) (by decide) (by decide) (by decide)

/-- The three rectangles produced by lines 235-249 have pairwise disjoint
interiors, for any state and figure dimensions: the lower panel ends exactly
where the map begins, and the right panel begins exactly where the map
ends. -/
theorem rects_core_no_overlap (m : MCS) (fx fy a b : ℚ) :
    ¬ (m.rects_core fx fy a b).1.overlaps (m.rects_core fx fy a b).2.1 ∧
    ¬ (m.rects_core fx fy a b).1.overlaps (m.rects_core fx fy a b).2.2 ∧
    ¬ (m.rects_core fx fy a b).2.1.overlaps (m.rects_core fx fy a b).2.2 := by
  simp only [MCS.rects_core, Rect.overlaps, Rect.rightEdge, Rect.topEdge]
  refine ⟨?_, ?_, ?_⟩
  · rintro ⟨-, h2⟩
    exact absurd h2 (not_lt.mpr (le_trans (min_le_right _ _) (le_max_left _ _)))
  · rintro ⟨h1, -⟩
    exact absurd h1 (not_lt.mpr (le_trans (min_le_left _ _) (le_max_right _ _)))
  · rintro ⟨h1, -⟩
    exact absurd h1 (not_lt.mpr (le_trans (min_le_left _ _) (le_max_right _ _)))

/-- When the plot aspect already equals the figure aspect (as after the
fill-figure adjustment), the map width and the right depth-strip width add
up to the usable width fraction of the figure. -/
theorem rects_core_width_sum (m : MCS) (fx fy a b : ℚ)
    (hpa : m.plot_aspect = a / b) (hX : m.xrange_km ≠ 0) :
    (m.rects_core fx fy a b).1.width + (m.rects_core fx fy a b).2.2.width =
      a / fx := by
  simp only [MCS.rects_core]
  have hs : (m.inch_per_km a b).1 = a / m.xrange_km := by
    unfold MCS.inch_per_km
    rw [hpa, if_neg (lt_irrefl _), if_neg (lt_irrefl _)]
  rw [hs]
  have h1 : m.lonrange_km * (a / m.xrange_km) / fx
      + m.depthrange * (a / m.xrange_km) / fx
      = m.xrange_km * (a / m.xrange_km) / fx := by
    rw [show (m.xrange_km : ℚ) = m.lonrange_km + m.depthrange from rfl]
    ring
  rw [h1, ← mul_div_assoc, mul_div_cancel_left₀ _ hX]

/-- The composite x range stays positive through `_adjustminmax` when the
inputs are valid. -/
theorem adjust_xrange_pos (m : MCS) (fa : ℚ) (hfa : 0 < fa)
    (hcos : 0 < m.cosDeg ((m.lat_min + m.lat_max) / 2))
    (hX : 0 < m.xrange_km) (hY : 0 < m.yrange_km) :
    0 < (m.adjustminmax fa).xrange_km := by
  have hL : m.km_per_deg_lon ≠ 0 := by
    unfold MCS.km_per_deg_lon
    exact (mul_pos km_per_deg_lat_pos hcos).ne'
  by_cases h : fa > m.plot_aspect
  · rw [adjust_xrange_of_gt m fa h hL]
    exact mul_pos hY hfa
  · rw [adjust_xrange_of_le m fa h]
    exact hX

/-- C3: for every valid extent, figure size and padding, `_make_rects`
returns panels where the map and the longitude-depth panel below it share
left and width, the map and the depth-latitude panel to its right share
bottom and height, no two rectangles overlap, and with `fill_figure` the map
width plus the depth-strip width equals the usable width fraction of the
figure. -/
theorem C3_panel_rects (m : MCS) (fig_x fig_y : ℚ) (fill : Bool)
    (_hfx : 0 < fig_x)
    (hxr : 0 < fig_x - m.pad_left - m.pad_right)
    (hyr : 0 < fig_y - m.pad_top - m.pad_bottom)
    (hcos : 0 < m.cosDeg ((m.lat_min + m.lat_max) / 2))
    (hX : 0 < m.xrange_km) (hY : 0 < m.yrange_km) :
    (m.make_rects fig_x fig_y fill).1.left = (m.make_rects fig_x fig_y fill).2.1.left ∧
    (m.make_rects fig_x fig_y fill).1.width = (m.make_rects fig_x fig_y fill).2.1.width ∧
    (m.make_rects fig_x fig_y fill).1.bottom = (m.make_rects fig_x fig_y fill).2.2.bottom ∧
    (m.make_rects fig_x fig_y fill).1.height = (m.make_rects fig_x fig_y fill).2.2.height ∧
    ¬ (m.make_rects fig_x fig_y fill).1.overlaps (m.make_rects fig_x fig_y fill).2.1 ∧
    ¬ (m.make_rects fig_x fig_y fill).1.overlaps (m.make_rects fig_x fig_y fill).2.2 ∧
    ¬ (m.make_rects fig_x fig_y fill).2.1.overlaps (m.make_rects fig_x fig_y fill).2.2 ∧
    (fill = true →
      (m.make_rects fig_x fig_y fill).1.width +
        (m.make_rects fig_x fig_y fill).2.2.width =
        (fig_x - m.pad_left - m.pad_right) / fig_x) := by
  simp only [MCS.make_rects]
  refine ⟨rfl, rfl, rfl, rfl,
    (rects_core_no_overlap _ fig_x fig_y _ _).1,
    (rects_core_no_overlap _ fig_x fig_y _ _).2.1,
    (rects_core_no_overlap _ fig_x fig_y _ _).2.2, ?_⟩
  intro hf
  subst hf
  rw [if_pos rfl]
  have hfa : 0 < (fig_x - m.pad_left - m.pad_right) / (fig_y - m.pad_top - m.pad_bottom) :=
    div_pos hxr hyr
  exact rects_core_width_sum _ fig_x fig_y _ _
    (adjust_plot_aspect m _ hcos hX hY)
    (adjust_xrange_pos m _ hfa hcos hX hY).ne'

/-- Witness for C3 at the sample state with the default 6.4 x 4.8 inch
figure and `fill_figure = True`. -/
theorem C3_panel_rects_witness :
    (sampleMCS.make_rects 6.4 4.8 true).1.left =
      (sampleMCS.make_rects 6.4 4.8 true).2.1.left ∧
    (sampleMCS.make_rects 6.4 4.8 true).1.width =
      (sampleMCS.make_rects 6.4 4.8 true).2.1.width ∧
    (sampleMCS.make_rects 6.4 4.8 true).1.bottom =
      (sampleMCS.make_rects 6.4 4.8 true).2.2.bottom ∧
    (sampleMCS.make_rects 6.4 4.8 true).1.height =
      (sampleMCS.make_rects 6.4 4.8 true).2.2.height ∧
    ¬ (sampleMCS.make_rects 6.4 4.8 true).1.overlaps
      (sampleMCS.make_rects 6.4 4.8 true).2.1 ∧
    ¬ (sampleMCS.make_rects 6.4 4.8 true).1.overlaps
      (sampleMCS.make_rects 6.4 4.8 true).2.2 ∧
    ¬ (sampleMCS.make_rects 6.4 4.8 true).2.1.overlaps
      (sampleMCS.make_rects 6.4 4.8 true).2.2 ∧
    (true = true →
      (sampleMCS.make_rects 6.4 4.8 true).1.width +
        (sampleMCS.make_rects 6.4 4.8 true).2.2.width =
        (6.4 - sampleMCS.pad_left - sampleMCS.pad_right) / 6.4) :=
  C3_panel_rects sampleMCS 6.4 4.8 true (by decide) (by decide) (by decide)
    (by decide) (by decide) (by decide)

theorem foldl_min_le (l : List ℚ) (a : ℚ) : l.foldl min a ≤ a := by
  induction l generalizing a with
  | nil => exact le_refl a
  | cons x xs ih => exact le_trans (ih (min a x)) (min_le_left a x)

theorem le_foldl_max (l : List ℚ) (a : ℚ) : a ≤ l.foldl max a := by
  induction l generalizing a with
  | nil => exact le_refl a
  | cons x xs ih => exact le_trans (le_max_left a x) (ih (max a x))

/-- C4: with no explicit extent and non-empty samples, buffer 0 gives
exactly the min/max box of the samples, and a general buffer `buf` gives
that box expanded outward by `buf` times the axis range on each end of each
axis; the same holds for the depth extent. -/
theorem C4_extent_from_samples (la lo dp : ℚ) (lats lons dps : List ℚ) (buf : ℚ) :
    get_map_extent none (some (la :: lats)) (some (lo :: lons)) 0 =
      some (lons.foldl min lo, lons.foldl max lo,
            lats.foldl min la, lats.foldl max la) ∧
    get_map_extent none (some (la :: lats)) (some (lo :: lons)) buf =
      some (lons.foldl min lo - (lons.foldl max lo - lons.foldl min lo) * buf,
            lons.foldl max lo + (lons.foldl max lo - lons.foldl min lo) * buf,
            lats.foldl min la - (lats.foldl max la - lats.foldl min la) * buf,
            lats.foldl max la + (lats.foldl max la - lats.foldl min la) * buf) ∧
    get_depth_extent none (some (dp :: dps)) 0 =
      some (dps.foldl min dp, dps.foldl max dp) ∧
    get_depth_extent none (some (dp :: dps)) buf =
      some (dps.foldl min dp - (dps.foldl max dp - dps.foldl min dp) * buf,
            dps.foldl max dp + (dps.foldl max dp - dps.foldl min dp) * buf) := by
  refine ⟨?_, rfl, ?_, rfl⟩
  · simp [get_map_extent, pymin, pymax]
  · simp [get_depth_extent, pymin, pymax]

/-- C5 counterexample: all samples coinciding produce a zero-range extent
without any failure — `_get_map_extent` applies the asserts only to an
explicit extent, so the degenerate extent `(45, 45, 45, 45)` is returned
and reaches the layout step even though `lon_max` is not greater than
`lon_min`. -/
theorem C5_counterexample :
    get_map_extent none (some [45]) (some [45]) (1/5) = some (45, 45, 45, 45) ∧
    ¬ ((45 : ℚ) < 45) := by
  exact ⟨by decide, lt_irrefl 45⟩

/-- C5 (amended): extent computation fails when neither an explicit extent
nor samples are supplied, when supplied samples are empty, and when an
explicit extent has zero or negative range on some axis; an extent computed
from samples with a non-negative buffer always satisfies `max ≥ min` on
every axis, but equality is possible (all samples coinciding), so a
zero-range computed extent is not rejected. -/
theorem C5_extent_validation :
    (∀ (e : Extent4) (lats lons : Option (List ℚ)) (buf : ℚ),
      ¬ (e.1 < e.2.1 ∧ e.2.2.1 < e.2.2.2) →
      get_map_extent (some e) lats lons buf = none) ∧
    (∀ (lons : Option (List ℚ)) (buf : ℚ),
      get_map_extent none none lons buf = none) ∧
    (∀ (lats : Option (List ℚ)) (buf : ℚ),
      get_map_extent none lats none buf = none) ∧
    (∀ (lats : List ℚ) (buf : ℚ),
      get_map_extent none (some lats) (some []) buf = none) ∧
    (∀ (lons : List ℚ) (buf : ℚ),
      get_map_extent none (some []) (some lons) buf = none) ∧
    (∀ (la lo : ℚ) (lats lons : List ℚ) (buf : ℚ) (e : Extent4), 0 ≤ buf →
      get_map_extent none (some (la :: lats)) (some (lo :: lons)) buf = some e →
      e.1 ≤ e.2.1 ∧ e.2.2.1 ≤ e.2.2.2) ∧
    (∀ (de : Extent2) (ds : Option (List ℚ)) (buf : ℚ), ¬ (de.1 < de.2) →
      get_depth_extent (some de) ds buf = none) ∧
    (∀ (buf : ℚ), get_depth_extent none none buf = none) ∧
    (∀ (buf : ℚ), get_depth_extent none (some []) buf = none) ∧
    (∀ (d : ℚ) (ds : List ℚ) (buf : ℚ) (de : Extent2), 0 ≤ buf →
      get_depth_extent none (some (d :: ds)) buf = some de → de.1 ≤ de.2) := by
  refine ⟨?_, ?_, ?_, ?_, ?_, ?_, ?_, ?_, ?_, ?_⟩
  · intro e lats lons buf h
    simp [get_map_extent, h]
  · intro lons buf
    rfl
  · intro lats buf
    cases lats <;> rfl
  · intro lats buf
    cases pymin lats <;> rfl
  · intro lons buf
    simp [get_map_extent, pymin, pymax]
  · intro la lo lats lons buf e hb he
    have hmin : lons.foldl min lo ≤ lo := foldl_min_le lons lo
    have hmax : lo ≤ lons.foldl max lo := le_foldl_max lons lo
    have hmin' : lats.foldl min la ≤ la := foldl_min_le lats la
    have hmax' : la ≤ lats.foldl max la := le_foldl_max lats la
    have hlon : (0 : ℚ) ≤ (lons.foldl max lo - lons.foldl min lo) * buf :=
      mul_nonneg (by linarith) hb
    have hlat : (0 : ℚ) ≤ (lats.foldl max la - lats.foldl min la) * buf :=
      mul_nonneg (by linarith) hb
    have he' : e = (lons.foldl min lo - (lons.foldl max lo - lons.foldl min lo) * buf,
        lons.foldl max lo + (lons.foldl max lo - lons.foldl min lo) * buf,
        lats.foldl min la - (lats.foldl max la - lats.foldl min la) * buf,
        lats.foldl max la + (lats.foldl max la - lats.foldl min la) * buf) := by
      have := he.symm
      simpa [get_map_extent, pymin, pymax] using this
    subst he'
    constructor
    · dsimp only
      linarith
    · dsimp only
      linarith
  · intro de ds buf h
    simp [get_depth_extent, h]
  · intro buf
    rfl
  · intro buf
    rfl
  · intro d ds buf de hb he
    have hmin : ds.foldl min d ≤ d := foldl_min_le ds d
    have hmax : d ≤ ds.foldl max d := le_foldl_max ds d
    have hd : (0 : ℚ) ≤ (ds.foldl max d - ds.foldl min d) * buf :=
      mul_nonneg (by linarith) hb
    have he' : de = (ds.foldl min d - (ds.foldl max d - ds.foldl min d) * buf,
        ds.foldl max d + (ds.foldl max d - ds.foldl min d) * buf) := by
      have := he.symm
      simpa [get_depth_extent, pymin, pymax] using this
    subst he'
    dsimp only
    linarith

/-- Witness for the amended C5: an explicit zero-range extent is rejected,
and a computed extent from distinct samples satisfies the ordering. -/
theorem C5_extent_validation_witness :
    get_map_extent (some (45, 45, -13, -12)) none none (1/5) = none ∧
    get_depth_extent (some (7, 7)) none (1/5) = none ∧
    ((10 : ℚ) ≤ 20 ∧ (1 : ℚ) ≤ 3) := by
  refine ⟨C5_extent_validation.1 (45, 45, -13, -12) none none (1/5) (by decide),
    C5_extent_validation.2.2.2.2.2.2.1 (7, 7) none (1/5) (by decide), ?_⟩
  have h := C5_extent_validation.2.2.2.2.2.1 1 10 [3] [20] 0 (10, 20, 1, 3)
    (by decide) (by decide)
  simpa using h

/-- C6: `Circle.contains(lon, lat)` is true iff the geodesic distance in
meters between the point and the center, divided by `1852 * 60`, is at most
the radius; in particular the center itself is contained for any positive
radius (the geodesic distance of a point to itself being 0), and any point
whose distance quotient exceeds the radius is not contained. -/
theorem C6_circle_contains (gdist : ℚ → ℚ → ℚ → ℚ → ℚ) (c : Circle)
    (lon lat : ℚ) :
    (c.contains gdist lon lat = true ↔
      gdist lat lon c.latitude c.longitude / (1852 * 60) ≤ c.radius) ∧
    (gdist c.latitude c.longitude c.latitude c.longitude = 0 → 0 < c.radius →
      c.contains gdist c.longitude c.latitude = true) ∧
    (c.radius < gdist lat lon c.latitude c.longitude / (1852 * 60) →
      c.contains gdist lon lat = false) := by
  refine ⟨decide_eq_true_iff, ?_, ?_⟩
  · intro h0 hr
    unfold Circle.contains
    rw [h0]
    simp
    positivity
  · intro h
    unfold Circle.contains
    simpa using h

/-- Witness for C6 at the spec scenario: center `(45.3, -12.8)`, radius
`0.1` degrees; the center is contained and the far point `(46.0, -12.8)` is
not. -/
theorem C6_circle_contains_witness :
    (Circle.init 45.3 (-12.8) (1/10)).contains sampleDist 45.3 (-12.8) = true ∧
    (Circle.init 45.3 (-12.8) (1/10)).contains sampleDist 46 (-12.8) = false :=
  ⟨(C6_circle_contains sampleDist (Circle.init 45.3 (-12.8) (1/10))
      45.3 (-12.8)).2.1 (by decide) (by decide),
   (C6_circle_contains sampleDist (Circle.init 45.3 (-12.8) (1/10))
      46 (-12.8)).2.2 (by decide)⟩

/-- C7 counterexample: both constructors succeed on degenerate input — a
circle with negative radius and a two-vertex polygon are constructed with no
error, contradicting the claimed construction-time rejection. -/
theorem C7_counterexample :
    (Circle.init 45.3 (-12.8) (-1)).radius = -1 ∧
    (Polygon.init [(0, 0), (1, 1)]).polygon.length = 2 :=
  ⟨rfl, rfl⟩

/-- C7 (amended): `Circle.__init__` and `Polygon.__init__` perform no
validation at all — they store their arguments unchanged, so a circle with
non-positive radius and a polygon with fewer than 3 vertices are
constructed successfully. -/
theorem C7_no_ctor_validation (lon lat r : ℚ) (p : List (ℚ × ℚ)) :
    Circle.init lon lat r = ⟨lon, lat, r⟩ ∧
    (Circle.init lon lat r).radius = r ∧
    Polygon.init p = ⟨p⟩ ∧
    (Polygon.init p).polygon = p :=
  ⟨rfl, rfl, rfl, rfl⟩

/-- C8 counterexample: a relocated event with cluster id 13 receives the
*last* palette color (index 11, matplotlib clipping), not
`palette[13 mod 12] = palette[1]` as claimed; and a relocated event with no
cluster comment receives `palette[0]` (cluster id defaults to 0), not the
reserved unclustered color. -/
theorem C8_counterexample :
    event_color (some "HYPODD") [some "HypoDD cluster id: 13"] =
      Except.ok (PlotColor.palette 11) ∧
    PlotColor.palette 11 ≠ PlotColor.palette 1 ∧
    event_color (some "HYPODD") [] = Except.ok (PlotColor.palette 0) ∧
    PlotColor.palette 0 ≠ PlotColor.invalid := by
  refine ⟨rfl, by decide, rfl, by decide⟩

/-- C8 (amended): events whose relocated origin lacks a method id, or whose
method id does not contain `"HYPODD"`, get the reserved unclustered color;
every other event gets `cmap12 cluster_id`, where the cluster id parsed
from the `"HypoDD cluster id"` comment is *clipped* into the 12-color
palette (indices above 11 to the last color, negative ones to the first),
not reduced modulo 12, an absent cluster comment yields cluster id 0,
i.e. the first palette color rather than the unclustered color, and a
matching comment whose number part does not parse raises `ValueError`
instead of falling back to any color. -/
theorem C8_cluster_colors :
    (∀ comments, event_color none comments = Except.ok PlotColor.invalid) ∧
    (∀ mid comments, hypodd_method (some mid) = false →
      event_color (some mid) comments = Except.ok PlotColor.invalid) ∧
    (∀ mid comments i, hypodd_method (some mid) = true →
      parse_cluster_id comments = Except.ok i →
      event_color (some mid) comments = Except.ok (cmap12 i)) ∧
    (∀ i : Int, 11 < i → cmap12 i = PlotColor.palette 11) ∧
    (∀ i : Int, i < 0 → cmap12 i = PlotColor.palette 0) ∧
    (∀ (i : Int) (h1 : 0 ≤ i) (h2 : i ≤ 11),
      cmap12 i = PlotColor.palette ⟨i.toNat, by omega⟩) ∧
    (∀ mid, hypodd_method (some mid) = true →
      event_color (some mid) [] = Except.ok (cmap12 0)) ∧
    (∀ comments t, find_cluster_comment comments = some t →
      pyToInt ((splitOnColon t.toList).getLastD []) = none →
      parse_cluster_id comments = Except.error "ValueError") ∧
    (∀ mid comments, hypodd_method (some mid) = true →
      parse_cluster_id comments = Except.error "ValueError" →
      event_color (some mid) comments = Except.error "ValueError") := by
  refine ⟨?_, ?_, ?_, ?_, ?_, ?_, ?_, ?_, ?_⟩
  · intro comments
    rfl
  · intro mid comments h
    simp [event_color, h]
  · intro mid comments i h hp
    simp [event_color, h, hp]
  · intro i h
    simp [cmap12, h]
  · intro i h
    rw [cmap12, dif_neg (by omega), dif_pos h]
    rfl
  · intro i h1 h2
    rw [cmap12, dif_neg (by omega), dif_neg (by omega)]
  · intro mid h
    simp [event_color, h, parse_cluster_id, find_cluster_comment]
  · intro comments t hfind hparse
    unfold parse_cluster_id
    rw [hfind]
    dsimp only
    rw [hparse]
  · intro mid comments h hp
    simp [event_color, h, hp]

/-- Witness for the amended C8, including the malformed-comment
ValueError. -/
theorem C8_cluster_colors_witness :
    event_color (some "OTHER") [] = Except.ok PlotColor.invalid ∧
    event_color (some "smart HYPODD v1") [some "HypoDD cluster id: 3"] =
      Except.ok (cmap12 3) ∧
    cmap12 20 = PlotColor.palette 11 ∧
    cmap12 (-2) = PlotColor.palette 0 ∧
    event_color (some "HYPODD") [some "HypoDD cluster id: x"] =
      Except.error "ValueError" :=
  ⟨C8_cluster_colors.2.1 "OTHER" [] (by decide),
   C8_cluster_colors.2.2.1 "smart HYPODD v1" [some "HypoDD cluster id: 3"] 3
     (by decide) (by rfl),
   C8_cluster_colors.2.2.2.1 20 (by decide),
   C8_cluster_colors.2.2.2.2.1 (-2) (by decide),
   C8_cluster_colors.2.2.2.2.2.2.2.2 "HYPODD" [some "HypoDD cluster id: x"]
     (by decide)
     (C8_cluster_colors.2.2.2.2.2.2.2.1 [some "HypoDD cluster id: x"]
       "HypoDD cluster id: x" (by rfl) (by rfl))⟩

theorem get_map_extent_explicit (e : Extent4) (lats lons : Option (List ℚ))
    (buf : ℚ) (r : Extent4)
    (h : get_map_extent (some e) lats lons buf = some r) : r = e := by
  have h' : (if e.1 < e.2.1 ∧ e.2.2.1 < e.2.2.2 then some e else none) = some r := h
  split_ifs at h'
  exact (Option.some_inj.mp h').symm

theorem get_depth_extent_explicit (e : Extent2) (ds : Option (List ℚ))
    (buf : ℚ) (r : Extent2)
    (h : get_depth_extent (some e) ds buf = some r) : r = e := by
  have h' : (if e.1 < e.2 then some e else none) = some r := h
  split_ifs at h'
  exact (Option.some_inj.mp h').symm

theorem get_map_extent_explicit_some (e : Extent4) (lats lons : Option (List ℚ))
    (buf : ℚ) (h1 : e.1 < e.2.1) (h2 : e.2.2.1 < e.2.2.2) :
    get_map_extent (some e) lats lons buf = some e := by
  show (if e.1 < e.2.1 ∧ e.2.2.1 < e.2.2.2 then some e else none) = some e
  exact if_pos ⟨h1, h2⟩

theorem get_depth_extent_explicit_some (e : Extent2) (ds : Option (List ℚ))
    (buf : ℚ) (h1 : e.1 < e.2) :
    get_depth_extent (some e) ds buf = some e := by
  show (if e.1 < e.2 then some e else none) = some e
  exact if_pos h1

/-- A `_plot_events` call with explicit valid extents and nonzero composite
ranges succeeds and returns those extents. -/
theorem render_explicit_some (cosDeg : ℚ → ℚ) (me : Extent4) (de : Extent2)
    (pos : Positions) (h1 : me.1 < me.2.1) (h2 : me.2.2.1 < me.2.2.2)
    (h3 : de.1 < de.2)
    (hx : (mcs_from me de cosDeg).xrange_km ≠ 0)
    (hy : (mcs_from me de cosDeg).yrange_km ≠ 0) :
    plot_events_render cosDeg (some me) (some de) pos = some ⟨me, de⟩ := by
  unfold plot_events_render
  rw [get_map_extent_explicit_some me (some pos.latitudes) (some pos.longitudes)
      (1/5) h1 h2,
    get_depth_extent_explicit_some de (some pos.depths) (1/5) h3]
  show (if (mcs_from me de cosDeg).xrange_km = 0 ∨ (mcs_from me de cosDeg).yrange_km = 0
    then none else some (RenderResult.mk me de)) = some (RenderResult.mk me de)
  exact if_neg (fun hor => hor.elim hx hy)

theorem origins_first_isSome (cat : List PEvent)
    (h : ∀ e ∈ cat, e.origins ≠ []) :
    ∃ os, origins_first cat = some os := by
  induction cat with
  | nil => exact ⟨[], rfl⟩
  | cons e rest ih =>
    obtain ⟨os, hos⟩ := ih (fun x hx => h x (List.mem_cons_of_mem _ hx))
    have he : e.origins ≠ [] := h e (List.mem_cons_self _ _)
    rcases ho : e.origins with - | ⟨o, os'⟩
    · exact absurd ho he
    · exact ⟨o :: os, by simp [origins_first, ho, hos]⟩

theorem origins_last_isSome (cat : List PEvent)
    (h : ∀ e ∈ cat, e.origins ≠ []) :
    ∃ os, origins_last cat = some os := by
  induction cat with
  | nil => exact ⟨[], rfl⟩
  | cons e rest ih =>
    obtain ⟨os, hos⟩ := ih (fun x hx => h x (List.mem_cons_of_mem _ hx))
    have he : e.origins ≠ [] := h e (List.mem_cons_self _ _)
    have hs : e.origins.getLast?.isSome := List.getLast?_isSome.mpr he
    obtain ⟨o, ho⟩ := Option.isSome_iff_exists.mp hs
    exact ⟨o :: os, by simp [origins_last, ho, hos]⟩

/-- When every event passes the per-event plot-parameter computation, the
whole `_set_plot_params` loop succeeds. -/
theorem set_plot_params_ok (cat : List PEvent)
    (h : ∀ e ∈ cat, (set_plot_params_event e).isOk = true) :
    ∃ ps, set_plot_params cat = Except.ok ps := by
  induction cat with
  | nil => exact ⟨[], rfl⟩
  | cons e rest ih =>
    obtain ⟨ps, hps⟩ := ih (fun x hx => h x (List.mem_cons_of_mem _ hx))
    have he := h e (List.mem_cons_self _ _)
    rcases hev : set_plot_params_event e with err | x
    · rw [hev] at he
      exact Bool.noConfusion he
    · exact ⟨x :: ps, by simp [set_plot_params, hev, hps]⟩

theorem extract_positions_isSome (cat : List PEvent)
    (h : ∀ e ∈ cat, e.origins ≠ []) :
    ∃ p, extract_positions cat = some p := by
  obtain ⟨os, hos⟩ := origins_first_isSome cat h
  obtain ⟨rs, hrs⟩ := origins_last_isSome cat h
  exact ⟨(⟨os.map POrigin.latitude, os.map POrigin.longitude,
           os.map (fun o => o.depth / 1000)⟩,
          ⟨rs.map POrigin.latitude, rs.map POrigin.longitude,
           rs.map (fun o => o.depth / 1000)⟩),
    by simp [extract_positions, hos, hrs]⟩

/-- A `_plot_events` call with explicit extents that completes returns
those extents unchanged. -/
theorem render_explicit (cosDeg : ℚ → ℚ) (me : Extent4) (de : Extent2)
    (pos : Positions) (r : RenderResult)
    (h : plot_events_render cosDeg (some me) (some de) pos = some r) :
    r = ⟨me, de⟩ := by
  unfold plot_events_render at h
  rcases hm : get_map_extent (some me) (some pos.latitudes) (some pos.longitudes) (1/5)
    with - | me'
  · rw [hm] at h
    exact Option.noConfusion h
  · rw [hm] at h
    dsimp only at h
    rcases hd : get_depth_extent (some de) (some pos.depths) (1/5) with - | de'
    · rw [hd] at h
      exact Option.noConfusion h
    · rw [hd] at h
      dsimp only at h
      split at h
      · exact Option.noConfusion h
      · rw [Option.some_inj] at h
        rw [← h, get_map_extent_explicit _ _ _ _ _ hm,
          get_depth_extent_explicit _ _ _ _ hd]

/-- C9 (amended): for a catalog whose events all have origins, pass the
per-event plot-parameter computation (a first magnitude exists and the
cluster color is computable), and a valid explicit extent configuration
(ordered extents, positive cosine at the mean latitude), one
`_plot_original_relocated` invocation completes and produces exactly the
two outputs `{base}_original.pdf` and `{base}_relocated.pdf`, with the
relocated-events figure rendered with the same extents as the
original-events figure; moreover for every extent configuration whatever,
any completed invocation names its outputs that way and passes the extents
returned by the first render unchanged into the second. -/
theorem C9_extent_stability (cosDeg : ℚ → ℚ) (base : String) (cat : List PEvent)
    (me : Extent4) (de : Extent2)
    (hcat : ∀ e ∈ cat, e.origins ≠ [])
    (hparams : ∀ e ∈ cat, (set_plot_params_event e).isOk = true)
    (hlon : me.1 < me.2.1) (hlat : me.2.2.1 < me.2.2.2) (hde : de.1 < de.2)
    (hcos : 0 < cosDeg ((me.2.2.1 + me.2.2.2) / 2)) :
    plot_original_relocated cosDeg base cat (some me) (some de) =
      some (base ++ "_original.pdf", base ++ "_relocated.pdf",
        ⟨me, de⟩, ⟨me, de⟩) ∧
    (∀ (mo : Option Extent4) (dpo : Option Extent2)
      (r : String × String × RenderResult × RenderResult),
      plot_original_relocated cosDeg base cat mo dpo = some r →
      r.1 = base ++ "_original.pdf" ∧ r.2.1 = base ++ "_relocated.pdf" ∧
      r.2.2.2 = r.2.2.1) := by
  constructor
  · obtain ⟨⟨op, rp⟩, hex⟩ := extract_positions_isSome cat hcat
    obtain ⟨ps, hps⟩ := set_plot_params_ok cat hparams
    have hxpos : 0 < (mcs_from me de cosDeg).xrange_km := by
      unfold mcs_from MCS.xrange_km MCS.lonrange_km MCS.lonrange MCS.depthrange
        MCS.km_per_deg_lon
      dsimp only
      exact add_pos (mul_pos (sub_pos.mpr hlon) (mul_pos km_per_deg_lat_pos hcos))
        (sub_pos.mpr hde)
    have hypos : 0 < (mcs_from me de cosDeg).yrange_km := by
      unfold mcs_from MCS.yrange_km MCS.latrange_km MCS.latrange MCS.depthrange
      dsimp only
      exact add_pos (mul_pos (sub_pos.mpr hlat) km_per_deg_lat_pos)
        (sub_pos.mpr hde)
    have hr1 : plot_events_render cosDeg (some me) (some de) op = some ⟨me, de⟩ :=
      render_explicit_some cosDeg me de op hlon hlat hde hxpos.ne' hypos.ne'
    have hr2 : plot_events_render cosDeg (some me) (some de) rp = some ⟨me, de⟩ :=
      render_explicit_some cosDeg me de rp hlon hlat hde hxpos.ne' hypos.ne'
    simp [plot_original_relocated, hex, hps, hr1, hr2]
  · intro mo dpo r h
    unfold plot_original_relocated at h
    rcases hx : extract_positions cat with - | ⟨op, rp⟩
    · rw [hx] at h
      exact Option.noConfusion h
    · rw [hx] at h
      dsimp only at h
      rcases hp : set_plot_params cat with err | ps
      · rw [hp] at h
        exact Option.noConfusion h
      · rw [hp] at h
        dsimp only at h
        rcases h1 : plot_events_render cosDeg mo dpo op with - | r1
        · rw [h1] at h
          exact Option.noConfusion h
        · rw [h1] at h
          dsimp only at h
          rcases h2 : plot_events_render cosDeg (some r1.map_extent)
              (some r1.depth_extent) rp with - | r2
          · rw [h2] at h
            exact Option.noConfusion h
          · rw [h2] at h
            dsimp only at h
            rw [Option.some_inj] at h
            subst h
            refine ⟨rfl, rfl, ?_⟩
            show r2 = r1
            rw [render_explicit _ _ _ _ _ h2]

/-- C9 counterexample: two catalogs whose single event has origins with
coordinates, rendered with a valid explicit extent configuration, yet the
invocation aborts in `_set_plot_params` before the first `savefig` and
produces no file at all: once because the event has no magnitudes
(`event.magnitudes[0]` raises IndexError), once because the relocated
origin is HypoDD-flagged with a malformed `HypoDD cluster id` comment
(`int("x")` raises ValueError). -/
theorem C9_counterexample :
    plot_original_relocated (fun _ => 1) "hypoDDpy"
      [⟨[⟨-12.8, 45.3, 10000, some "HYPODD", [some "HypoDD cluster id: 1"]⟩], []⟩]
      (some (45, 46, -13, -12)) (some (0, 50)) = none ∧
    plot_original_relocated (fun _ => 1) "hypoDDpy"
      [⟨[⟨-12.8, 45.3, 10000, some "HYPODD", [some "HypoDD cluster id: x"]⟩], [2]⟩]
      (some (45, 46, -13, -12)) (some (0, 50)) = none :=
  ⟨rfl, rfl⟩

/-- Witness for the amended C9 at the spec scenario: catalog of 3 events,
`map_extent=[45, 46, -13, -12]`, `depth_extent=[0, 50]`. -/
theorem C9_extent_stability_witness :
    plot_original_relocated (fun _ => 1) "hypoDDpy" sampleCat
        (some (45, 46, -13, -12)) (some (0, 50)) =
      some ("hypoDDpy" ++ "_original.pdf", "hypoDDpy" ++ "_relocated.pdf",
        ⟨(45, 46, -13, -12), (0, 50)⟩, ⟨(45, 46, -13, -12), (0, 50)⟩) :=
  (C9_extent_stability (fun _ => 1) "hypoDDpy" sampleCat
    (45, 46, -13, -12) (0, 50)
    (by decide) (by decide) (by decide) (by decide) (by decide) (by decide)).1

/-- C10 counterexample: `circle=[]` is not `None` yet is falsy, so
`if circle:` skips the `Circle(circle)` call and the invocation completes
and produces the two figures — the claim's universal `TypeError` for every
non-`None` circle fails at the empty list. -/
theorem C10_counterexample :
    plot_events (fun _ => 1) sampleCat "hypoDDpy" (some []) none
      (some (45, 46, -13, -12)) (some (0, 50)) =
      Except.ok ("hypoDDpy_original.pdf", "hypoDDpy_relocated.pdf",
        ⟨(45, 46, -13, -12), (0, 50)⟩, ⟨(45, 46, -13, -12), (0, 50)⟩) ∧
    plot_events (fun _ => 1) sampleCat "hypoDDpy" (some []) none
      (some (45, 46, -13, -12)) (some (0, 50)) ≠
      Except.error "TypeError" := by
  refine ⟨rfl, fun hcontra => ?_⟩
  rw [show plot_events (fun _ => 1) sampleCat "hypoDDpy" (some []) none
      (some (45, 46, -13, -12)) (some (0, 50)) =
      Except.ok ("hypoDDpy_original.pdf", "hypoDDpy_relocated.pdf",
        ⟨(45, 46, -13, -12), (0, 50)⟩, ⟨(45, 46, -13, -12), (0, 50)⟩) from rfl] at hcontra
  exact Except.noConfusion hcontra

/-- C10 (amended): for every call of `plot_events` whose circle argument is
a non-empty list and with no polygon, the call deterministically raises
`TypeError` before any figure is drawn: the circle list is passed to
`Circle` as its single positional argument while `Circle.__init__` requires
three. -/
theorem C10_circle_type_error (cosDeg : ℚ → ℚ) (cat : List PEvent)
    (base : String) (c : List ℚ) (mo : Option Extent4) (dpo : Option Extent2)
    (hc : c ≠ []) :
    plot_events cosDeg cat base (some c) none mo dpo =
      Except.error "TypeError" := by
  cases c with
  | nil => exact absurd rfl hc
  | cons x xs => rfl

/-- Witness for the amended C10 at the spec scenario circle
`[45.3, -12.8, 0.1]`. -/
theorem C10_circle_type_error_witness :
    plot_events (fun _ => 1) sampleCat "hypoDDpy" (some [45.3, -12.8, 1/10])
      none (some (45, 46, -13, -12)) (some (0, 50)) =
      Except.error "TypeError" :=
  C10_circle_type_error (fun _ => 1) sampleCat "hypoDDpy" [45.3, -12.8, 1/10]
    (some (45, 46, -13, -12)) (some (0, 50)) (by decide)

end HypoDDPy
